import Mathlib

/-!
Shallow embedding of the ESP-NOW communication component
(components/esp_now_comm/Source/esp_now_comm.c together with its header).

Modelling conventions:
- `esp_err_t` is a `Nat` carrying the ESP-IDF error-code values used by the
  component (ESP_OK = 0, ESP_ERR_INVALID_ARG = 0x102, ...).
- A C pointer argument that may be NULL becomes an `Option`; `none` is NULL.
- A MAC address is a list of byte values (six entries in every use here).
- Callback function pointers are abstract handler tokens (`Option Nat`,
  `none` meaning the NULL pointer); the dispatch seam returns which handler
  was invoked and with which arguments, or `none` when the event is dropped.
- Every call into the external ESP-IDF transport/radio (esp_netif_init,
  esp_wifi_*, esp_now_*) is modelled by an explicit result parameter: the
  component only branches on the returned `esp_err_t`, so its behaviour is a
  function of those results.  The process-wide mutable state of the component
  itself (`g_config`, `g_peer_count`) is threaded explicitly.
-/

namespace EspNowComm

/-- ESP-IDF error code: success. -/
def ESP_OK : Nat := 0

/-- ESP-IDF error code: out of memory (0x101). -/
def ESP_ERR_NO_MEM : Nat := 0x101

/-- ESP-IDF error code: invalid argument (0x102). -/
def ESP_ERR_INVALID_ARG : Nat := 0x102

/-- ESP-IDF error code: invalid state (0x103). -/
def ESP_ERR_INVALID_STATE : Nat := 0x103

/-- ESP-NOW transport error code: ESP-NOW is not initialized
(ESP_ERR_ESPNOW_BASE + 1 = 0x3065), produced by the external transport,
never by this component. -/
def ESP_ERR_ESPNOW_NOT_INIT : Nat := 0x3065

/-- ESP_NOW_COMM_MAX_PEERS from esp_now_comm.h. -/
def ESP_NOW_COMM_MAX_PEERS : Nat := 20

/-- ESP_NOW_COMM_PAYLOAD_SIZE from esp_now_comm.h (v1.0 payload limit). -/
def ESP_NOW_COMM_PAYLOAD_SIZE : Int := 250

/-- A hardware (MAC) address value: the six byte values behind a `uint8_t *`. -/
abbrev Mac := List Nat

/-- The all-zero 6-byte address. -/
def zeroMac : Mac := List.replicate 6 0

/-- The C type `esp_now_comm_config_t`: cached device MAC plus the two user callbacks.
Callback pointers are abstract tokens; `none` is a NULL function pointer. -/
structure CommConfig where
  mac_addr : Mac
  on_recv : Option Nat
  on_send : Option Nat
  deriving DecidableEq

/-- The component's process-wide mutable state: the static variables
`g_config` and `g_peer_count` of esp_now_comm.c. -/
structure CommState where
  g_config : CommConfig
  g_peer_count : Nat
  deriving DecidableEq

/-- The zero-initialized static state: `g_config = {0}`, `g_peer_count = 0`. -/
def initState : CommState :=
  { g_config := { mac_addr := zeroMac, on_recv := none, on_send := none }
    g_peer_count := 0 }

/-- Results reported by the external environment during one run of
`esp_now_comm_init`: one `esp_err_t` per ESP-IDF call the function makes, and
the MAC bytes that `esp_wifi_get_mac` writes when it succeeds. -/
structure InitEnv where
  netif_result : Nat
  event_loop_result : Nat
  wifi_init_result : Nat
  set_mode_result : Nat
  wifi_start_result : Nat
  get_mac_result : Nat
  got_mac : Mac
  now_init_result : Nat
  reg_send_cb_result : Nat
  reg_recv_cb_result : Nat
  deriving DecidableEq

/-- The C function `esp_now_comm_init(config)`.  Returns the `esp_err_t` and the new state.
Mirrors the C: NULL-config check, memcpy of the config into `g_config`, then
the chain of environment calls with the exact tolerated error codes
(ESP_ERR_INVALID_STATE for netif/wifi init/start, ESP_ERR_NO_MEM for the
event loop), storing the queried MAC into `g_config.mac_addr` at step #07. -/
def esp_now_comm_init (st : CommState) (config : Option CommConfig)
    (env : InitEnv) : Nat × CommState :=
  match config with
  | none => (ESP_ERR_INVALID_ARG, st)
  | some cfg =>
    let st1 : CommState := { st with g_config := cfg }
    if env.netif_result ≠ ESP_OK ∧ env.netif_result ≠ ESP_ERR_INVALID_STATE then
      (env.netif_result, st1)
    else if env.event_loop_result ≠ ESP_OK ∧ env.event_loop_result ≠ ESP_ERR_NO_MEM then
      (env.event_loop_result, st1)
    else if env.wifi_init_result ≠ ESP_OK ∧ env.wifi_init_result ≠ ESP_ERR_INVALID_STATE then
      (env.wifi_init_result, st1)
    else if env.set_mode_result ≠ ESP_OK then
      (env.set_mode_result, st1)
    else if env.wifi_start_result ≠ ESP_OK ∧ env.wifi_start_result ≠ ESP_ERR_INVALID_STATE then
      (env.wifi_start_result, st1)
    else if env.get_mac_result ≠ ESP_OK then
      (env.get_mac_result, st1)
    else
      let st2 : CommState :=
        { st1 with g_config := { st1.g_config with mac_addr := env.got_mac } }
      if env.now_init_result ≠ ESP_OK then
        (env.now_init_result, st2)
      else if env.reg_send_cb_result ≠ ESP_OK then
        (env.reg_send_cb_result, st2)
      else if env.reg_recv_cb_result ≠ ESP_OK then
        (env.reg_recv_cb_result, st2)
      else
        (ESP_OK, st2)

/-- Result of a peer-directory operation: the returned `esp_err_t`, the new
component state, and whether the underlying transport call
(`esp_now_add_peer` / `esp_now_del_peer`) was actually made. -/
structure PeerOpResult where
  ret : Nat
  state : CommState
  transport_called : Bool
  deriving DecidableEq

/-- The C function `esp_now_comm_add_peer(mac_addr)`.  `addPeerResult` is the `esp_err_t`
that the external `esp_now_add_peer` would return if called.  Mirrors the C:
combined guard `!mac_addr || g_peer_count >= ESP_NOW_COMM_MAX_PEERS` returns
ESP_ERR_INVALID_ARG; otherwise the transport registration runs, its failure
is propagated unchanged, and on success `g_peer_count` is incremented. -/
def esp_now_comm_add_peer (st : CommState) (mac_addr : Option Mac)
    (addPeerResult : Nat) : PeerOpResult :=
  match mac_addr with
  | none => { ret := ESP_ERR_INVALID_ARG, state := st, transport_called := false }
  | some _ =>
    if ESP_NOW_COMM_MAX_PEERS ≤ st.g_peer_count then
      { ret := ESP_ERR_INVALID_ARG, state := st, transport_called := false }
    else if addPeerResult ≠ ESP_OK then
      { ret := addPeerResult, state := st, transport_called := true }
    else
      { ret := ESP_OK
        state := { st with g_peer_count := st.g_peer_count + 1 }
        transport_called := true }

/-- The C function `esp_now_comm_remove_peer(mac_addr)`.  `delPeerResult` is the `esp_err_t`
that the external `esp_now_del_peer` would return.  Mirrors the C: NULL check,
transport deregistration with failure propagated unchanged, then a guarded
decrement of `g_peer_count` (only when it is above zero). -/
def esp_now_comm_remove_peer (st : CommState) (mac_addr : Option Mac)
    (delPeerResult : Nat) : PeerOpResult :=
  match mac_addr with
  | none => { ret := ESP_ERR_INVALID_ARG, state := st, transport_called := false }
  | some _ =>
    if delPeerResult ≠ ESP_OK then
      { ret := delPeerResult, state := st, transport_called := true }
    else if 0 < st.g_peer_count then
      { ret := ESP_OK
        state := { st with g_peer_count := st.g_peer_count - 1 }
        transport_called := true }
    else
      { ret := ESP_OK, state := st, transport_called := true }

/-- The C function `esp_now_comm_send(mac_addr, data, len)`.  `sendResult` is the
`esp_err_t` the external `esp_now_send` would return.  Mirrors the C: the
guard `!data || len <= 0 || len > ESP_NOW_COMM_PAYLOAD_SIZE` returns
ESP_ERR_INVALID_ARG, otherwise the transport result is returned unmodified.
The function reads no component state (no global is consulted). -/
def esp_now_comm_send (mac_addr : Option Mac) (data : Option (List Nat))
    (len : Int) (sendResult : Nat) : Nat :=
  if data = none ∨ len ≤ 0 ∨ ESP_NOW_COMM_PAYLOAD_SIZE < len then
    ESP_ERR_INVALID_ARG
  else
    sendResult

/-- The C function `esp_now_comm_get_mac(mac_addr)`.  `out_is_null` says whether the caller
passed a NULL output pointer.  Returns the `esp_err_t` and the six bytes
written into the output buffer (`none` when nothing is written).  Mirrors the
C: NULL check, then a memcpy of the cached `g_config.mac_addr` — no hardware
query and no initialization check. -/
def esp_now_comm_get_mac (st : CommState) (out_is_null : Bool) :
    Nat × Option Mac :=
  if out_is_null then
    (ESP_ERR_INVALID_ARG, none)
  else
    (ESP_OK, some st.g_config.mac_addr)

/-- The C function `esp_now_comm_deinit()`.  Mirrors the C: it calls the external
`esp_now_deinit` and `esp_wifi_stop` (whose results are discarded), touches
neither `g_config` nor `g_peer_count`, and returns ESP_OK. -/
def esp_now_comm_deinit (st : CommState) : Nat × CommState :=
  (ESP_OK, st)

/-- The static send-completion forwarder `esp_now_send_cb`: invokes
`g_config.on_send` with the peer MAC and status when that handler is set,
otherwise drops the event.  The returned value records the invocation
(handler token, MAC, status) or `none` when dropped. -/
def esp_now_send_cb (st : CommState) (mac_addr : Mac) (status : Nat) :
    Option (Nat × Mac × Nat) :=
  match st.g_config.on_send with
  | none => none
  | some h => some (h, mac_addr, status)

/-- The static receive forwarder `esp_now_recv_cb`: invokes
`g_config.on_recv` with the source MAC (`recv_info->src_addr`), the data
pointer and the length when that handler is set, otherwise drops the event.
The returned value records the invocation or `none` when dropped. -/
def esp_now_recv_cb (st : CommState) (src_addr : Mac) (data : List Nat)
    (len : Int) : Option (Nat × Mac × List Nat × Int) :=
  match st.g_config.on_recv with
  | none => none
  | some h => some (h, src_addr, data, len)

/-- Runs `esp_now_comm_add_peer` once per address in the list (in order),
with the underlying transport registration succeeding each time; returns the
list of `esp_err_t` results and the final state. -/
def runAdds : CommState → List Mac → List Nat × CommState
  | st, [] => ([], st)
  | st, m :: ms =>
    let r := esp_now_comm_add_peer st (some m) ESP_OK
    let rest := runAdds r.state ms
    (r.ret :: rest.1, rest.2)

/-- Twenty-one pairwise distinct non-null 6-byte addresses. -/
def macs21 : List Mac := (List.range 21).map (fun i => [0, 0, 0, 0, 0, i + 1])

/-- A concrete live component state: both handlers configured, a non-zero
cached MAC, three registered peers. -/
def stLive : CommState :=
  { g_config := { mac_addr := [18, 52, 86, 120, 154, 188]
                  on_recv := some 1
                  on_send := some 2 }
    g_peer_count := 3 }

/-- A concrete environment in which every ESP-IDF call during initialization
succeeds and the address query reports a fixed non-zero MAC. -/
def envOk : InitEnv :=
  { netif_result := ESP_OK
    event_loop_result := ESP_OK
    wifi_init_result := ESP_OK
    set_mode_result := ESP_OK
    wifi_start_result := ESP_OK
    get_mac_result := ESP_OK
    got_mac := [16, 32, 48, 64, 80, 96]
    now_init_result := ESP_OK
    reg_send_cb_result := ESP_OK
    reg_recv_cb_result := ESP_OK }

/-- A concrete user configuration passed to initialize: both handlers set,
address field zeroed (to be filled in by initialize). -/
def cfgHandlers : CommConfig :=
  { mac_addr := zeroMac, on_recv := some 1, on_send := some 2 }

/- ------------------------------------------------------------------ -/
/- Helper lemmas                                                      -/
/- ------------------------------------------------------------------ -/

/-- A successful add below capacity increments the counter and calls the
transport. -/
theorem add_peer_ok (st : CommState) (m : Mac)
    (hlt : st.g_peer_count < ESP_NOW_COMM_MAX_PEERS) :
    esp_now_comm_add_peer st (some m) ESP_OK =
      { ret := ESP_OK
        state := { st with g_peer_count := st.g_peer_count + 1 }
        transport_called := true } := by
  simp [esp_now_comm_add_peer, Nat.not_le.mpr hlt]

/-- While capacity remains, a run of adds (transport succeeding) returns all
ESP_OK and increases the counter by the number of addresses. -/
theorem runAdds_all_ok (ms : List Mac) (st : CommState)
    (hle : st.g_peer_count + ms.length ≤ ESP_NOW_COMM_MAX_PEERS) :
    runAdds st ms =
      (List.replicate ms.length ESP_OK,
        { st with g_peer_count := st.g_peer_count + ms.length }) := by
  induction ms generalizing st with
  | nil =>
    simp [runAdds]
  | cons m ms ih =>
    have hlt : st.g_peer_count < ESP_NOW_COMM_MAX_PEERS := by
      simp only [List.length_cons] at hle
      omega
    have hrec := ih { st with g_peer_count := st.g_peer_count + 1 }
      (by simp only [List.length_cons] at hle; simpa using by omega)
    simp only [runAdds, add_peer_ok st m hlt, hrec, List.length_cons,
      List.replicate_succ]
    have harith : st.g_peer_count + 1 + ms.length =
        st.g_peer_count + (ms.length + 1) := by omega
    rw [harith]

/-- Running adds over an appended list composes. -/
theorem runAdds_append (st : CommState) (l1 l2 : List Mac) :
    runAdds st (l1 ++ l2) =
      ((runAdds st l1).1 ++ (runAdds (runAdds st l1).2 l2).1,
        (runAdds (runAdds st l1).2 l2).2) := by
  induction l1 generalizing st with
  | nil => simp [runAdds]
  | cons m ms ih => simp [runAdds, ih]

/-- No path through initialize touches the peer counter. -/
theorem init_peer_count (st : CommState) (config : Option CommConfig)
    (env : InitEnv) :
    (esp_now_comm_init st config env).2.g_peer_count = st.g_peer_count := by
  cases config with
  | none => rfl
  | some cfg =>
    simp only [esp_now_comm_init]
    split_ifs <;> rfl

set_option maxHeartbeats 1000000 in
/-- When initialize reports ESP_OK, the cached MAC is exactly the address
the environment's query reported. -/
theorem init_ok_mac (st : CommState) (cfg : CommConfig) (env : InitEnv)
    (hok : (esp_now_comm_init st (some cfg) env).1 = ESP_OK) :
    (esp_now_comm_init st (some cfg) env).2.g_config.mac_addr = env.got_mac := by
  simp only [esp_now_comm_init] at hok ⊢
  split_ifs at hok ⊢ with h1 h2 h3 h4 h5 h6 h7 h8 h9
  all_goals first
    | rfl
    | exact absurd hok h1.1
    | exact absurd hok h2.1
    | exact absurd hok h3.1
    | exact absurd hok h4
    | exact absurd hok h5.1
    | exact absurd hok h6
    | exact absurd hok h7
    | exact absurd hok h8
    | exact absurd hok h9

/- ------------------------------------------------------------------ -/
/- Claim theorems                                                     -/
/- ------------------------------------------------------------------ -/

/-- C1 counterexample: twenty-one adds with distinct non-null addresses from
the empty directory (transport succeeding each time).  The first twenty
return ESP_OK, and the twenty-first returns ESP_ERR_INVALID_ARG — the very
same code returned for an invalid argument, not a distinct CapacityExceeded
error as the claim states. -/
theorem c1_counterexample :
    (runAdds initState macs21).1 =
      List.replicate 20 ESP_OK ++ [ESP_ERR_INVALID_ARG] := by decide

/-- C1 (amended): for every sequence of MAX_PEERS + 1 add_peer calls with
distinct non-null addresses starting from the empty directory (transport
registration succeeding), the first MAX_PEERS calls succeed and the last
fails — but with ESP_ERR_INVALID_ARG, the same code used for invalid
arguments; no distinct CapacityExceeded code exists.  In general add_peer
returns ESP_ERR_INVALID_ARG whenever the directory already holds MAX_PEERS
entries. -/
theorem c1_amended_capacity (macs : List Mac)
    (hlen : macs.length = ESP_NOW_COMM_MAX_PEERS + 1)
    (hdist : macs.Pairwise (fun a b => a ≠ b)) :
    (runAdds initState macs).1 =
      List.replicate ESP_NOW_COMM_MAX_PEERS ESP_OK ++ [ESP_ERR_INVALID_ARG] ∧
    (∀ (st : CommState) (m : Mac) (r : Nat),
      ESP_NOW_COMM_MAX_PEERS ≤ st.g_peer_count →
      (esp_now_comm_add_peer st (some m) r).ret = ESP_ERR_INVALID_ARG) := by
  constructor
  · have hsplit : macs = macs.take 20 ++ macs.drop 20 :=
      (List.take_append_drop 20 macs).symm
    have hlen20 : (macs.take 20).length = 20 := by
      rw [List.length_take]
      simp [ESP_NOW_COMM_MAX_PEERS] at hlen
      omega
    have hlen1 : (macs.drop 20).length = 1 := by
      rw [List.length_drop]
      simp [ESP_NOW_COMM_MAX_PEERS] at hlen
      omega
    obtain ⟨m, hm⟩ := List.length_eq_one.mp hlen1
    have hfirst := runAdds_all_ok (macs.take 20) initState
      (by rw [hlen20]; simp [initState, ESP_NOW_COMM_MAX_PEERS])
    rw [hsplit, runAdds_append, hfirst, hm]
    have hfull : ESP_NOW_COMM_MAX_PEERS ≤
        (initState.g_peer_count + (macs.take 20).length) := by
      rw [hlen20]
      simp [initState, ESP_NOW_COMM_MAX_PEERS]
    simp [runAdds, esp_now_comm_add_peer, hlen20, hfull,
      ESP_NOW_COMM_MAX_PEERS, initState]
  · intro st m r hge
    simp [esp_now_comm_add_peer, hge]

/-- C1 witness: the amended statement applied to the concrete list of 21
distinct addresses. -/
theorem c1_amended_capacity_witness :
    (runAdds initState macs21).1 =
      List.replicate ESP_NOW_COMM_MAX_PEERS ESP_OK ++ [ESP_ERR_INVALID_ARG] :=
  (c1_amended_capacity macs21 (by decide) (by decide)).1

/-- C2 counterexample: deinitialize from a live state (handlers set, cached
MAC non-zero, three peers) returns ESP_OK but clears nothing — both handlers
are still set and the cached address is still non-zero afterwards,
contradicting the claimed postcondition. -/
theorem c2_counterexample :
    (esp_now_comm_deinit stLive).1 = ESP_OK ∧
    (esp_now_comm_deinit stLive).2.g_config.on_recv = some 1 ∧
    (esp_now_comm_deinit stLive).2.g_config.on_send = some 2 ∧
    (esp_now_comm_deinit stLive).2.g_config.mac_addr ≠ zeroMac ∧
    (esp_now_comm_deinit stLive).2.g_peer_count = 3 := by decide

/-- C2 (amended): deinitialize always returns ESP_OK and is idempotent, but
it clears no process-wide state: the handlers, the cached local address and
the peer counter are all left exactly as they were.  A later initialize
starts clean only because it overwrites the configuration itself. -/
theorem c2_amended_deinit (st : CommState) :
    esp_now_comm_deinit st = (ESP_OK, st) ∧
    esp_now_comm_deinit (esp_now_comm_deinit st).2 = (ESP_OK, st) :=
  ⟨rfl, rfl⟩

/-- C3 counterexample: called before any initialize (on the zero-initialized
static state) with a non-null output buffer, get_local_address does not fail
with NotInitialized — it returns ESP_OK and hands back the zeroed address. -/
theorem c3_counterexample :
    esp_now_comm_get_mac initState false = (ESP_OK, some zeroMac) ∧
    ESP_OK ≠ ESP_ERR_INVALID_ARG := by decide

/-- C3 (amended): get_local_address never performs an initialization check:
before any initialize it returns ESP_OK together with the zeroed cached
address, and after a successful initialize it returns, without querying
hardware again, exactly the address the environment's query reported during
that initialize. -/
theorem c3_amended_get_mac (st : CommState) (cfg : CommConfig) (env : InitEnv)
    (hok : (esp_now_comm_init st (some cfg) env).1 = ESP_OK) :
    esp_now_comm_get_mac (esp_now_comm_init st (some cfg) env).2 false =
      (ESP_OK, some env.got_mac) ∧
    esp_now_comm_get_mac initState false = (ESP_OK, some zeroMac) := by
  refine ⟨?_, rfl⟩
  rw [esp_now_comm_get_mac, init_ok_mac st cfg env hok]
  rfl

/-- C3 witness: the amended statement at the concrete all-succeeding
environment, whose address query reports [16, 32, 48, 64, 80, 96]. -/
theorem c3_amended_get_mac_witness :
    esp_now_comm_get_mac
        (esp_now_comm_init initState (some cfgHandlers) envOk).2 false =
      (ESP_OK, some envOk.got_mac) :=
  (c3_amended_get_mac initState cfgHandlers envOk (by decide)).1

/-- C4: send rejects a null payload, a non-positive length, or a length
above ESP_NOW_COMM_PAYLOAD_SIZE (250) with ESP_ERR_INVALID_ARG — the
function reads no process-wide state, so this holds regardless of
initialization — and for valid arguments it returns the transport's own
enqueue result unmodified. -/
theorem c4_send_validation (mac_addr : Option Mac) (data : Option (List Nat))
    (len : Int) (sendResult : Nat) :
    ((data = none ∨ len ≤ 0 ∨ ESP_NOW_COMM_PAYLOAD_SIZE < len) →
      esp_now_comm_send mac_addr data len sendResult = ESP_ERR_INVALID_ARG) ∧
    (data ≠ none → 0 < len → len ≤ ESP_NOW_COMM_PAYLOAD_SIZE →
      esp_now_comm_send mac_addr data len sendResult = sendResult) := by
  constructor
  · intro h
    simp [esp_now_comm_send, h]
  · intro h1 h2 h3
    have hg : ¬ (data = none ∨ len ≤ 0 ∨ ESP_NOW_COMM_PAYLOAD_SIZE < len) := by
      push_neg
      exact ⟨h1, h2, h3⟩
    simp [esp_now_comm_send, hg]

/-- C4 witness: zero length, over-length (251), and null payload all return
ESP_ERR_INVALID_ARG, while a valid 3-byte send returns the transport result
(7) unmodified. -/
theorem c4_send_validation_witness :
    esp_now_comm_send none (some [1]) 0 7 = ESP_ERR_INVALID_ARG ∧
    esp_now_comm_send none (some [1]) 251 7 = ESP_ERR_INVALID_ARG ∧
    esp_now_comm_send none none 10 7 = ESP_ERR_INVALID_ARG ∧
    esp_now_comm_send none (some [1, 2, 3]) 3 7 = 7 :=
  ⟨(c4_send_validation none (some [1]) 0 7).1 (Or.inr (Or.inl (by decide))),
   (c4_send_validation none (some [1]) 251 7).1 (Or.inr (Or.inr (by decide))),
   (c4_send_validation none none 10 7).1 (Or.inl rfl),
   (c4_send_validation none (some [1, 2, 3]) 3 7).2 (by decide) (by decide)
     (by decide)⟩

/-- C5 counterexample: after deinitialize (which changes no state), a send
with a null payload fails with ESP_ERR_INVALID_ARG — not with a
NotInitialized error of this layer — so it is false that every post-deinit
send fails with NotInitialized; the only not-initialized code in play,
ESP_ERR_ESPNOW_NOT_INIT, belongs to the transport and differs from the
returned code. -/
theorem c5_counterexample :
    (esp_now_comm_deinit stLive).2 = stLive ∧
    esp_now_comm_send none none 10 ESP_ERR_ESPNOW_NOT_INIT =
      ESP_ERR_INVALID_ARG ∧
    ESP_ERR_INVALID_ARG ≠ ESP_ERR_ESPNOW_NOT_INIT := by decide

/-- C5 (amended): this layer keeps no initialized flag — deinitialize leaves
the state untouched and send performs no initialization check of its own.
After deinitialize, a send with invalid arguments still fails with
ESP_ERR_INVALID_ARG, and a send with valid arguments returns the transport's
own result verbatim; when the deinitialized transport reports its
ESP_ERR_ESPNOW_NOT_INIT, send returns exactly that transport error, not a
NotInitialized error of this layer. -/
theorem c5_amended_send_after_deinit (st : CommState) (mac_addr : Option Mac)
    (data : Option (List Nat)) (len : Int) (sendResult : Nat) :
    (esp_now_comm_deinit st).2 = st ∧
    (data ≠ none → 0 < len → len ≤ ESP_NOW_COMM_PAYLOAD_SIZE →
      esp_now_comm_send mac_addr data len ESP_ERR_ESPNOW_NOT_INIT =
        ESP_ERR_ESPNOW_NOT_INIT) ∧
    ((data = none ∨ len ≤ 0 ∨ ESP_NOW_COMM_PAYLOAD_SIZE < len) →
      esp_now_comm_send mac_addr data len sendResult =
        ESP_ERR_INVALID_ARG) := by
  refine ⟨rfl, ?_, ?_⟩
  · intro h1 h2 h3
    have hg : ¬ (data = none ∨ len ≤ 0 ∨ ESP_NOW_COMM_PAYLOAD_SIZE < len) := by
      push_neg
      exact ⟨h1, h2, h3⟩
    simp [esp_now_comm_send, hg]
  · intro h
    simp [esp_now_comm_send, h]

/-- C5 witness: the amended statement at concrete inputs — a valid 10-byte
send whose transport reports ESP_ERR_ESPNOW_NOT_INIT returns exactly that
code, and a null-payload send returns ESP_ERR_INVALID_ARG. -/
theorem c5_amended_send_after_deinit_witness :
    esp_now_comm_send none (some [1, 2, 3, 4, 5, 6, 7, 8, 9, 10]) 10
        ESP_ERR_ESPNOW_NOT_INIT = ESP_ERR_ESPNOW_NOT_INIT ∧
    esp_now_comm_send none none 10 ESP_OK = ESP_ERR_INVALID_ARG :=
  ⟨(c5_amended_send_after_deinit stLive none
      (some [1, 2, 3, 4, 5, 6, 7, 8, 9, 10]) 10 ESP_OK).2.1 (by decide)
      (by decide) (by decide),
   (c5_amended_send_after_deinit stLive none none 10 ESP_OK).2.2
      (Or.inl rfl)⟩

/-- C6: the receive forwarder hands every inbound datagram to the configured
receive handler verbatim (same source address, same payload, same length),
drops the event when no handler is configured, and is completely independent
of the peer directory — changing the peer counter never changes the
dispatch, so registration does not gate inbound delivery. -/
theorem c6_recv_dispatch (st : CommState) (src_addr : Mac) (data : List Nat)
    (len : Int) (h : Nat) :
    (st.g_config.on_recv = some h →
      esp_now_recv_cb st src_addr data len = some (h, src_addr, data, len)) ∧
    (st.g_config.on_recv = none →
      esp_now_recv_cb st src_addr data len = none) ∧
    (∀ n : Nat,
      esp_now_recv_cb { st with g_peer_count := n } src_addr data len =
        esp_now_recv_cb st src_addr data len) := by
  refine ⟨?_, ?_, fun n => rfl⟩
  · intro hset
    simp [esp_now_recv_cb, hset]
  · intro hnone
    simp [esp_now_recv_cb, hnone]

/-- C6 witness: in the live state the handler (token 1) is invoked verbatim
for a datagram from a source address never added as a peer. -/
theorem c6_recv_dispatch_witness :
    esp_now_recv_cb stLive [9, 9, 9, 9, 9, 9] [5, 6] 2 =
      some (1, [9, 9, 9, 9, 9, 9], [5, 6], 2) :=
  (c6_recv_dispatch stLive [9, 9, 9, 9, 9, 9] [5, 6] 2 1).1 rfl

/-- C7: whenever add_peer actually reaches the transport registration and
that registration succeeds, an immediately following remove_peer with the
same address (its transport deregistration also succeeding) restores the
peer counter to exactly its value before the pair. -/
theorem c7_add_remove_roundtrip (st : CommState) (m : Mac)
    (hcalled :
      (esp_now_comm_add_peer st (some m) ESP_OK).transport_called = true) :
    (esp_now_comm_remove_peer (esp_now_comm_add_peer st (some m) ESP_OK).state
        (some m) ESP_OK).transport_called = true ∧
    (esp_now_comm_remove_peer (esp_now_comm_add_peer st (some m) ESP_OK).state
        (some m) ESP_OK).state.g_peer_count = st.g_peer_count := by
  have hc : ¬ ESP_NOW_COMM_MAX_PEERS ≤ st.g_peer_count := by
    by_contra hge
    simp [esp_now_comm_add_peer, hge] at hcalled
  rw [add_peer_ok st m (Nat.not_le.mp hc)]
  simp [esp_now_comm_remove_peer]

/-- C7 witness: the round trip applied at the empty directory with the
address AA:BB:CC:DD:EE:FF (170:187:204:221:238:255) leaves the counter at
its prior value 0. -/
theorem c7_add_remove_roundtrip_witness :
    (esp_now_comm_remove_peer
        (esp_now_comm_add_peer initState
          (some [170, 187, 204, 221, 238, 255]) ESP_OK).state
        (some [170, 187, 204, 221, 238, 255]) ESP_OK).state.g_peer_count =
      initState.g_peer_count :=
  (c7_add_remove_roundtrip initState [170, 187, 204, 221, 238, 255]
    (by decide)).2

/-- C8: the peer counter never leaves [0, MAX_PEERS].  Starting from any
state with counter at most 20, initialize (any config pointer, any
environment), add_peer, remove_peer and deinitialize all leave the counter
at most 20, and removing a peer when the counter is zero leaves it at zero
(no underflow) — send and get_local_address write no state at all in the
code, so they cannot move the counter. -/
theorem c8_count_bounds (st : CommState) (config : Option CommConfig)
    (env : InitEnv) (mac_addr : Option Mac) (r d : Nat)
    (hle : st.g_peer_count ≤ ESP_NOW_COMM_MAX_PEERS) :
    (esp_now_comm_init st config env).2.g_peer_count ≤
      ESP_NOW_COMM_MAX_PEERS ∧
    (esp_now_comm_add_peer st mac_addr r).state.g_peer_count ≤
      ESP_NOW_COMM_MAX_PEERS ∧
    (esp_now_comm_remove_peer st mac_addr d).state.g_peer_count ≤
      ESP_NOW_COMM_MAX_PEERS ∧
    (esp_now_comm_deinit st).2.g_peer_count ≤ ESP_NOW_COMM_MAX_PEERS ∧
    (st.g_peer_count = 0 →
      (esp_now_comm_remove_peer st mac_addr d).state.g_peer_count = 0) := by
  refine ⟨?_, ?_, ?_, hle, ?_⟩
  · rw [init_peer_count]
    exact hle
  · cases mac_addr with
    | none => exact hle
    | some m =>
      simp only [esp_now_comm_add_peer]
      split_ifs with h1 h2
      · exact hle
      · exact hle
      · simp only [ESP_NOW_COMM_MAX_PEERS] at h1 ⊢
        omega
  · cases mac_addr with
    | none => exact hle
    | some m =>
      simp only [esp_now_comm_remove_peer]
      split_ifs with h1 h2
      · exact hle
      · simp only [ESP_NOW_COMM_MAX_PEERS] at hle ⊢
        omega
      · exact hle
  · intro hzero
    cases mac_addr with
    | none => exact hzero
    | some m =>
      simp only [esp_now_comm_remove_peer]
      split_ifs with h1 h2
      · exact hzero
      · omega
      · exact hzero

/-- C8 witness: the bounds applied at the live state (counter 3) with a
concrete address and succeeding transport calls. -/
theorem c8_count_bounds_witness :
    (esp_now_comm_add_peer stLive (some [1, 2, 3, 4, 5, 6])
        ESP_OK).state.g_peer_count ≤ ESP_NOW_COMM_MAX_PEERS ∧
    (esp_now_comm_remove_peer stLive (some [1, 2, 3, 4, 5, 6])
        ESP_OK).state.g_peer_count ≤ ESP_NOW_COMM_MAX_PEERS :=
  ⟨(c8_count_bounds stLive none envOk (some [1, 2, 3, 4, 5, 6]) ESP_OK ESP_OK
      (by decide)).2.1,
   (c8_count_bounds stLive none envOk (some [1, 2, 3, 4, 5, 6]) ESP_OK ESP_OK
      (by decide)).2.2.1⟩

/-- C9 counterexample: add_peer with the non-null all-zero 6-byte address
from the empty directory is not rejected — the validation passes, the
transport registration is performed, and on transport success the call
returns ESP_OK with the counter incremented to 1, contradicting every part
of the claimed zero-address rejection. -/
theorem c9_counterexample :
    esp_now_comm_add_peer initState (some zeroMac) ESP_OK =
      { ret := ESP_OK
        state := { g_config := initState.g_config, g_peer_count := 1 }
        transport_called := true } := by decide

/-- C9 (amended): add_peer rejects with ESP_ERR_INVALID_ARG only for a null
address, leaving the directory unchanged and making no transport call; a
non-null all-zero address is not screened by this layer — below capacity it
is forwarded to the transport and, when the transport accepts it, the call
succeeds and the counter increments. -/
theorem c9_amended_add_null_check (st : CommState) (r : Nat) :
    esp_now_comm_add_peer st none r =
      { ret := ESP_ERR_INVALID_ARG, state := st, transport_called := false } ∧
    (st.g_peer_count < ESP_NOW_COMM_MAX_PEERS →
      esp_now_comm_add_peer st (some zeroMac) ESP_OK =
        { ret := ESP_OK
          state := { st with g_peer_count := st.g_peer_count + 1 }
          transport_called := true }) :=
  ⟨rfl, fun hlt => add_peer_ok st zeroMac hlt⟩

/-- C9 witness: the amended statement at the empty directory. -/
theorem c9_amended_add_null_check_witness :
    esp_now_comm_add_peer initState (some zeroMac) ESP_OK =
      { ret := ESP_OK
        state := { g_config := initState.g_config, g_peer_count := 1 }
        transport_called := true } :=
  (c9_amended_add_null_check initState ESP_OK).2 (by decide)

/-- C10: initialize with a null configuration pointer fails with
ESP_ERR_INVALID_ARG and returns the state exactly unchanged (handlers,
cached address and peer counter all keep their prior values); the result is
the same for every environment, so no transport operation influences it —
the null check precedes the copy into the global configuration. -/
theorem c10_init_null_config (st : CommState) (env : InitEnv) :
    esp_now_comm_init st none env = (ESP_ERR_INVALID_ARG, st) := rfl

end EspNowComm
